import Mathlib

/-!
Verification of the device/sensor upsert and reading-ingest subsystem of the
"Plataforma Climática" backend (src/app/models.py, src/app/main.py,
src/app/schemas.py).

The Python code talks to PostgreSQL through asyncpg; the SQL statements are
embedded verbatim in the source.  We shallowly embed the relevant tables as
Lean structures (a list of rows plus the next value of the serial id column)
and each operation as a pure state-passing function whose behaviour mirrors
the SQL statement it executes.  Fallible operations return `Except`; an
`Except.error` result means the statement aborted and the store is unchanged
(each write in this core is a single atomic statement).

Machine floats (`FactorEscala`, `Valor`, ...) are modelled as `Rat`: no claim
under verification depends on float rounding, only on values being carried
around unchanged.  Timestamps are modelled as `Nat` (seconds since the epoch):
the claims only depend on their linear order and on bucket truncation.
-/

/-! ### JSON documents (device `configuracion`) -/

/-- A JSON-like document, used for the opaque `configuracion` column of
`sensor.dispositivos`.  The spec (§3, §9) treats it as an untyped key-value
document; numbers are modelled as integers (no claim depends on float
payloads). -/
inductive Json where
  | null : Json
  | bool : Bool → Json
  | num : Int → Json
  | str : String → Json
  | arr : List Json → Json
  | obj : List (String × Json) → Json

/-- Modelled from the spec: the serialization of `configuracion` is performed
by the json library and the asyncpg driver, which §1 of the spec excludes as
external collaborators ("request validation", "a standard driver"); only the
requirement remains that the stored document "must deserialize back to the
original structure, or to null if absent" (§4.1).  We model the serialized
column value as a wrapper carrying the document, with `json_dumps` /
`json_loads` the (trivially inverse) introduction and elimination. -/
structure SerializedDoc where
  doc : Json

/-- Serialization used when `upsert_dispositivo` binds the `configuracion`
parameter ($6). -/
def json_dumps (j : Json) : SerializedDoc := ⟨j⟩

/-- Deserialization used by the `/devices` read path
(`json.loads(r["configuracion"])` in src/app/main.py). -/
def json_loads (s : SerializedDoc) : Json := s.doc

/-! ### Devices table (`sensor.dispositivos`) -/

/-- One row of `sensor.dispositivos` (columns per the INSERT in
`upsert_dispositivo`, src/app/models.py lines 12-22, plus the generated
`dispositivoid`). -/
structure Dispositivo where
  dispositivoid : Nat
  serie : String
  nombre : String
  ubicacion : Option String
  tipo : Option String
  firmware : Option String
  configuracion : Option SerializedDoc

/-- The `sensor.dispositivos` table: its rows plus the next value of the
`dispositivoid` sequence. -/
structure DispositivosTable where
  rows : List Dispositivo
  nextId : Nat

/-- Table invariant backing the UNIQUE constraint on `serie` (which the
`ON CONFLICT (serie)` clause requires) and the primary key / sequence on
`dispositivoid`. -/
def DispositivosTable.wf (t : DispositivosTable) : Prop :=
  t.rows.Pairwise (fun a b => a.serie ≠ b.serie ∧ a.dispositivoid ≠ b.dispositivoid) ∧
  ∀ r ∈ t.rows, r.dispositivoid < t.nextId

/-- The SET clause of `ON CONFLICT (serie) DO UPDATE` in `upsert_dispositivo`:
it overwrites `nombre`, `ubicacion`, `tipo`, `firmware`, `configuracion` and
leaves `dispositivoid` and `serie` untouched. -/
def updateDispositivo (nombre : String) (ubicacion tipo firmware : Option String)
    (configuracion : Option SerializedDoc) (q : Dispositivo) : Dispositivo :=
  { q with nombre := nombre, ubicacion := ubicacion, tipo := tipo,
           firmware := firmware, configuracion := configuracion }

/-- Embedding of `upsert_dispositivo` (src/app/models.py lines 4-27): the SQL
statement `INSERT INTO sensor.dispositivos ... ON CONFLICT (serie) DO UPDATE
SET ... RETURNING dispositivoid`.  If a row with the given `serie` exists the
statement updates it and returns its id; otherwise it inserts a fresh row with
a newly generated id.  Note that the function performs no validation of its
inputs (in particular no emptiness check on `serie` or `nombre`): the only
code between the FastAPI handler and the statement is parameter binding. -/
def upsert_dispositivo (serie nombre : String) (ubicacion tipo firmware : Option String)
    (configuracion : Option Json) (t : DispositivosTable) : DispositivosTable × Nat :=
  let cfg := configuracion.map json_dumps
  match t.rows.find? (fun r => r.serie == serie) with
  | some r =>
      (⟨t.rows.map (fun q =>
          if q.serie == serie then updateDispositivo nombre ubicacion tipo firmware cfg q else q),
        t.nextId⟩,
       r.dispositivoid)
  | none =>
      (⟨t.rows ++ [⟨t.nextId, serie, nombre, ubicacion, tipo, firmware, cfg⟩], t.nextId + 1⟩,
       t.nextId)

/-- Row shape returned by the `/devices` GET endpoint (schemas.DeviceOut):
`configuracion` is the deserialized document or `none`. -/
structure DeviceOut where
  dispositivoid : Nat
  serie : String
  nombre : String
  ubicacion : Option String
  tipo : Option String
  firmware : Option String
  configuracion : Option Json

/-- Ordering used by `get_devices` (`ORDER BY dispositivoid`). -/
def idAscRel (a b : Dispositivo) : Prop := a.dispositivoid ≤ b.dispositivoid

instance : DecidableRel idAscRel := fun a b => Nat.decLe a.dispositivoid b.dispositivoid

/-- The per-row dictionary built by the `/devices` GET endpoint
(src/app/main.py lines 177-186): all columns passed through, plus
`json.loads(r["configuracion"]) if r["configuracion"] else None` for the
`configuracion` column (a stored document is never the empty/falsy value, so
the feasible cases are exactly present-and-deserialized or absent-and-null). -/
def deviceToOut (r : Dispositivo) : DeviceOut :=
  ⟨r.dispositivoid, r.serie, r.nombre, r.ubicacion, r.tipo, r.firmware,
   match r.configuracion with
   | some s => some (json_loads s)
   | none => none⟩

/-- Embedding of the `/devices` GET endpoint (src/app/main.py lines 171-189):
`SELECT * FROM sensor.dispositivos ORDER BY dispositivoid`, each row converted
by `deviceToOut`. -/
def get_devices (t : DispositivosTable) : List DeviceOut :=
  (List.insertionSort idAscRel t.rows).map deviceToOut

/-! ### Generic list helpers -/

/-- If at most one element of a list satisfies `p` (no two elements both
satisfy it) and `x` is a member satisfying `p`, then filtering by `p` yields
exactly `[x]`. -/
theorem filter_singleton_of_unique {α : Type _} (p : α → Bool) {x : α} :
    ∀ (l : List α), x ∈ l → p x = true →
      l.Pairwise (fun a b => ¬(p a = true ∧ p b = true)) → l.filter p = [x]
  | [], hx, _, _ => absurd hx (List.not_mem_nil _)
  | a :: tl, hx, hpx, hpw => by
    rcases List.pairwise_cons.mp hpw with ⟨h1, h2⟩
    rcases List.mem_cons.mp hx with rfl | hx'
    · rw [List.filter_cons, if_pos hpx]
      have : tl.filter p = [] := List.filter_eq_nil_iff.mpr (fun b hb hpb => h1 b hb ⟨hpx, hpb⟩)
      rw [this]
    · have hpa : ¬ p a = true := fun hpa => h1 x hx' ⟨hpa, hpx⟩
      rw [List.filter_cons, if_neg hpa]
      exact filter_singleton_of_unique p tl hx' hpx h2

/-- Filtering a mapped list. -/
theorem filter_map_comm {α β : Type _} (f : α → β) (p : β → Bool) :
    ∀ l : List α, (l.map f).filter p = (l.filter (fun a => p (f a))).map f
  | [] => rfl
  | a :: tl => by
    rw [List.map_cons, List.filter_cons, List.filter_cons]
    by_cases h : p (f a) = true
    · rw [if_pos h, if_pos h, List.map_cons, filter_map_comm f p tl]
    · rw [if_neg h, if_neg h, filter_map_comm f p tl]

/-- Mapping a conditional update over a list where no element triggers the
condition is the identity. -/
theorem map_if_not_pred {α : Type _} (p : α → Bool) (f : α → α) :
    ∀ l : List α, (∀ a ∈ l, ¬ p a = true) →
      l.map (fun a => if p a then f a else a) = l
  | [], _ => rfl
  | a :: tl, h => by
    rw [List.map_cons, if_neg (h a (List.mem_cons_self a tl)),
      map_if_not_pred p f tl (fun b hb => h b (List.mem_cons_of_mem a hb))]

/-- Search in an appended list when the first part has no match. -/
theorem find?_append_none {α : Type _} (p : α → Bool) :
    ∀ (l₁ : List α), l₁.find? p = none → ∀ l₂, (l₁ ++ l₂).find? p = l₂.find? p
  | [], _, _ => rfl
  | a :: tl, h, l₂ => by
    have hpa : ¬ p a = true := by
      intro hpa
      rw [List.find?_cons_of_pos _ hpa] at h
      exact Option.noConfusion h
    rw [List.find?_cons_of_neg _ hpa] at h
    rw [List.cons_append, List.find?_cons_of_neg _ hpa]
    exact find?_append_none p tl h l₂

/-- Search commutes with mapping a function that does not change the
predicate's verdict. -/
theorem find?_map_pred_invariant {α : Type _} (p : α → Bool) (f : α → α)
    (hf : ∀ a, p (f a) = p a) :
    ∀ l : List α, (l.map f).find? p = (l.find? p).map f
  | [] => rfl
  | a :: tl => by
    rw [List.map_cons]
    by_cases h : p a = true
    · rw [List.find?_cons_of_pos _ (by rw [hf]; exact h), List.find?_cons_of_pos _ h]
      rfl
    · rw [List.find?_cons_of_neg _ (by rw [hf]; exact h), List.find?_cons_of_neg _ h]
      exact find?_map_pred_invariant p f hf tl

/-! ### Characterization of `upsert_dispositivo` -/

/-- The update function applied by the ON CONFLICT branch preserves `serie`. -/
theorem updateDispositivo_serie (nombre : String) (ubicacion tipo firmware : Option String)
    (cfg : Option SerializedDoc) (q : Dispositivo) :
    (updateDispositivo nombre ubicacion tipo firmware cfg q).serie = q.serie := rfl

/-- The update function applied by the ON CONFLICT branch preserves
`dispositivoid`. -/
theorem updateDispositivo_id (nombre : String) (ubicacion tipo firmware : Option String)
    (cfg : Option SerializedDoc) (q : Dispositivo) :
    (updateDispositivo nombre ubicacion tipo firmware cfg q).dispositivoid = q.dispositivoid := rfl

/-- Single-call characterization of `upsert_dispositivo` on a well-formed
table: the invariant is preserved and the unique row carrying the given
`serie` (equally: the returned id) afterwards holds exactly the call's field
values with the returned id. -/
theorem upsert_dispositivo_spec (t : DispositivosTable) (hwf : t.wf)
    (serie nombre : String) (ubicacion tipo firmware : Option String) (cfg : Option Json)
    {t1 : DispositivosTable} {id : Nat}
    (h : upsert_dispositivo serie nombre ubicacion tipo firmware cfg t = (t1, id)) :
    t1.wf ∧
    t1.rows.filter (fun r => r.serie == serie) =
      [⟨id, serie, nombre, ubicacion, tipo, firmware, cfg.map json_dumps⟩] ∧
    t1.rows.filter (fun r => r.dispositivoid == id) =
      [⟨id, serie, nombre, ubicacion, tipo, firmware, cfg.map json_dumps⟩] ∧
    (∀ q ∈ t.rows, q.serie = serie → q.dispositivoid = id) := by
  obtain ⟨hpw, hlt⟩ := hwf
  unfold upsert_dispositivo at h
  cases hf : t.rows.find? (fun r => r.serie == serie) with
  | none =>
    rw [hf] at h
    injection h with h1 h2
    subst h1; subst h2
    have hnos : ∀ r ∈ t.rows, ¬ (r.serie == serie) = true := List.find?_eq_none.mp hf
    refine ⟨⟨?_, ?_⟩, ?_, ?_, ?_⟩
    · rw [List.pairwise_append]
      refine ⟨hpw, List.pairwise_singleton _ _, ?_⟩
      intro a ha b hb
      rw [List.mem_singleton] at hb
      subst hb
      exact ⟨fun hs => hnos a ha (by simp [hs]), Nat.ne_of_lt (hlt a ha)⟩
    · intro r hr
      rcases List.mem_append.mp hr with hr' | hr'
      · exact Nat.lt_succ_of_lt (hlt r hr')
      · rw [List.mem_singleton] at hr'
        subst hr'
        exact Nat.lt_succ_self _
    · rw [List.filter_append, List.filter_eq_nil_iff.mpr hnos, List.nil_append]
      simp [List.filter_cons]
    · have hno : ∀ r ∈ t.rows, ¬ (r.dispositivoid == t.nextId) = true := by
        intro r hr hbeq
        exact Nat.ne_of_lt (hlt r hr) (by simpa using hbeq)
      rw [List.filter_append, List.filter_eq_nil_iff.mpr hno, List.nil_append]
      simp [List.filter_cons]
    · intro q hq hqs
      exact absurd (by simp [hqs]) (hnos q hq)
  | some r =>
    rw [hf] at h
    injection h with h1 h2
    subst h1; subst h2
    have hrs : r.serie = serie := by
      have := List.find?_some hf
      simpa using this
    have hrm : r ∈ t.rows := List.mem_of_find?_eq_some hf
    set u : Dispositivo → Dispositivo := fun q =>
      if q.serie == serie then
        updateDispositivo nombre ubicacion tipo firmware (cfg.map json_dumps) q
      else q with hu
    have hus : ∀ q, (u q).serie = q.serie := by
      intro q
      rw [hu]
      by_cases hq : (q.serie == serie) = true
      · simp only [if_pos hq, updateDispositivo_serie]
      · simp only [if_neg hq]
    have hui : ∀ q, (u q).dispositivoid = q.dispositivoid := by
      intro q
      rw [hu]
      by_cases hq : (q.serie == serie) = true
      · simp only [if_pos hq, updateDispositivo_id]
      · simp only [if_neg hq]
    have hur : u r = ⟨r.dispositivoid, serie, nombre, ubicacion, tipo, firmware,
        cfg.map json_dumps⟩ := by
      have hb : (r.serie == serie) = true := by simp [hrs]
      rw [hu]
      simp only [hb, if_true]
      unfold updateDispositivo
      cases r
      simp_all
    have hfilter : ∀ p : Dispositivo → Bool, (∀ q, p (u q) = p q) →
        t.rows.filter p = [r] → (t.rows.map u).filter p = [u r] := by
      intro p hp hfp
      rw [filter_map_comm]
      have : (t.rows.filter fun a => p (u a)) = t.rows.filter p := by
        apply List.filter_congr
        intro a _
        exact hp a
      rw [this, hfp, List.map_cons, List.map_nil]
    have hsing : t.rows.filter (fun q => q.serie == serie) = [r] := by
      apply filter_singleton_of_unique _ t.rows hrm (by simp [hrs])
      refine hpw.imp ?_
      intro a b hab hcl
      exact hab.1 (by
        have h1 : a.serie = serie := by simpa using hcl.1
        have h2 : b.serie = serie := by simpa using hcl.2
        rw [h1, h2])
    have hsingid : t.rows.filter (fun q => q.dispositivoid == r.dispositivoid) = [r] := by
      apply filter_singleton_of_unique _ t.rows hrm (by simp)
      refine hpw.imp ?_
      intro a b hab hcl
      exact hab.2 (by
        have h1 : a.dispositivoid = r.dispositivoid := by simpa using hcl.1
        have h2 : b.dispositivoid = r.dispositivoid := by simpa using hcl.2
        rw [h1, h2])
    refine ⟨⟨?_, ?_⟩, ?_, ?_, ?_⟩
    · rw [List.pairwise_map]
      refine hpw.imp ?_
      intro a b hab
      rw [hus, hus, hui, hui]
      exact hab
    · intro q hq
      rcases List.mem_map.mp hq with ⟨a, ha, rfl⟩
      rw [hui]
      exact hlt a ha
    · rw [hfilter _ (fun q => by rw [hus]) hsing, hur]
    · rw [hfilter _ (fun q => by rw [hui]) hsingid, hur]
    · intro q hq hqs
      have hmem : q ∈ t.rows.filter (fun q => q.serie == serie) :=
        List.mem_filter.mpr ⟨hq, by simp [hqs]⟩
      rw [hsing, List.mem_singleton] at hmem
      rw [hmem]

/-! ### Claims C3, C9, C10 (device registration) -/

/-- C3: device upsert is idempotent on the natural key `serie`.  Calling
`upsert_dispositivo` twice with the same serial (and arbitrary, possibly
different, other fields) leaves exactly one row for that serial, carrying the
second call's field values with the id and serial unchanged, and both calls
return the same device id. -/
theorem upsert_dispositivo_idempotent
    (t : DispositivosTable) (hwf : t.wf)
    (S n1 n2 : String) (u1 ty1 f1 u2 ty2 f2 : Option String) (c1 c2 : Option Json)
    {t1 t2 : DispositivosTable} {id1 id2 : Nat}
    (h1 : upsert_dispositivo S n1 u1 ty1 f1 c1 t = (t1, id1))
    (h2 : upsert_dispositivo S n2 u2 ty2 f2 c2 t1 = (t2, id2)) :
    id1 = id2 ∧
    t2.rows.filter (fun r => r.serie == S) =
      [⟨id1, S, n2, u2, ty2, f2, c2.map json_dumps⟩] := by
  obtain ⟨hwf1, hfil1, _, _⟩ := upsert_dispositivo_spec t hwf S n1 u1 ty1 f1 c1 h1
  obtain ⟨_, hfil2, _, hid2⟩ := upsert_dispositivo_spec t1 hwf1 S n2 u2 ty2 f2 c2 h2
  have hw : (⟨id1, S, n1, u1, ty1, f1, c1.map json_dumps⟩ : Dispositivo) ∈ t1.rows := by
    have hmem : (⟨id1, S, n1, u1, ty1, f1, c1.map json_dumps⟩ : Dispositivo) ∈
        t1.rows.filter (fun r => r.serie == S) := by
      rw [hfil1]
      exact List.mem_singleton_self _
    exact (List.mem_filter.mp hmem).1
  have hideq : id1 = id2 := hid2 _ hw rfl
  refine ⟨hideq, ?_⟩
  rw [hideq]
  exact hfil2

/-- Witness for C3 at a concrete input: registering serial S1 twice on an
empty table keeps a single row with the second name and returns id 1 both
times. -/
theorem upsert_dispositivo_idempotent_witness :
    (DispositivosTable.mk [] 1).wf ∧
    (1 = 1 ∧
      (DispositivosTable.mk [Dispositivo.mk 1 ("S1") ("n2") none none none none] 2).rows.filter
          (fun r => r.serie == ("S1")) =
        [Dispositivo.mk 1 ("S1") ("n2") none none none none]) :=
  have hwf : (DispositivosTable.mk [] 1).wf :=
    ⟨List.Pairwise.nil, fun r hr => absurd hr (List.not_mem_nil r)⟩
  ⟨hwf, upsert_dispositivo_idempotent (DispositivosTable.mk [] 1) hwf
    ("S1") ("n1") ("n2") none none none none none none none none rfl rfl⟩

/-- C9 counterexample: `upsert_dispositivo` called with the empty serial and
the empty name does not fail at all — it succeeds, returns a fresh id and
persists a device row keyed by the empty string (there is no emptiness
validation anywhere between the handler and the SQL statement, and the
pydantic schema `DeviceCreate` declares plain `str` fields, which accept empty
strings). -/
theorem upsert_dispositivo_empty_serial_counterexample :
    upsert_dispositivo ("") ("") none none none none (DispositivosTable.mk [] 1) =
      (DispositivosTable.mk [Dispositivo.mk 1 ("") ("") none none none none] 2, 1) := rfl

/-- C9 amended: no ValidationError is raised for empty `serie` or `nombre`;
the upsert always succeeds and afterwards the table contains a row with the
empty serial and the given (possibly empty) name. -/
theorem upsert_dispositivo_no_emptiness_validation
    (t : DispositivosTable) (n : String) (u ty f : Option String) (c : Option Json) :
    ∃ r ∈ ((upsert_dispositivo ("") n u ty f c t).1).rows, r.serie = ("") ∧ r.nombre = n := by
  cases hf : t.rows.find? (fun r => r.serie == ("")) with
  | none =>
    refine ⟨⟨t.nextId, (""), n, u, ty, f, c.map json_dumps⟩, ?_, rfl, rfl⟩
    simp only [upsert_dispositivo, hf]
    simp
  | some r =>
    have hrm := List.mem_of_find?_eq_some hf
    have hrs : r.serie = ("") := by simpa using List.find?_some hf
    have hb : (r.serie == ("")) = true := by simp [hrs]
    refine ⟨updateDispositivo n u ty f (c.map json_dumps) r, ?_, ?_, rfl⟩
    · simp only [upsert_dispositivo, hf]
      have hmem := List.mem_map_of_mem
        (fun q => if q.serie == ("") then updateDispositivo n u ty f (c.map json_dumps) q else q)
        hrm
      simpa only [hb, if_true] using hmem
    · rw [updateDispositivo_serie]
      exact hrs

/-- C10: device config round-trip.  After any `upsert_dispositivo` carrying a
config document (or none), reading the device back through `/devices` yields
that document deserialized (or null when absent): the single returned row for
the returned id holds exactly the call's fields with `configuracion = cfg`. -/
theorem upsert_config_roundtrip (t : DispositivosTable) (hwf : t.wf)
    (S n : String) (u ty f : Option String) (cfg : Option Json)
    {t1 : DispositivosTable} {id : Nat}
    (h : upsert_dispositivo S n u ty f cfg t = (t1, id)) :
    (get_devices t1).filter (fun d => d.dispositivoid == id) =
      [⟨id, S, n, u, ty, f, cfg⟩] := by
  obtain ⟨hwf1, _, hfid, _⟩ := upsert_dispositivo_spec t hwf S n u ty f cfg h
  unfold get_devices
  rw [filter_map_comm]
  have hcong : (List.insertionSort idAscRel t1.rows).filter
        (fun a => (deviceToOut a).dispositivoid == id) =
      (List.insertionSort idAscRel t1.rows).filter (fun a => a.dispositivoid == id) :=
    List.filter_congr (fun a _ => rfl)
  rw [hcong]
  have hp := List.Perm.filter (fun a => a.dispositivoid == id)
    (List.perm_insertionSort idAscRel t1.rows)
  rw [hfid] at hp
  rw [List.perm_singleton.mp hp]
  cases cfg <;> rfl

/-- Witness for C10 at a concrete input: upserting a device with config
document 7 on the empty table and reading it back returns config 7. -/
theorem upsert_config_roundtrip_witness :
    (DispositivosTable.mk [] 1).wf ∧
    (get_devices (DispositivosTable.mk
        [Dispositivo.mk 1 ("S1") ("n") none none none
          (some (SerializedDoc.mk (Json.num 7)))] 2)).filter
        (fun d => d.dispositivoid == 1) =
      [DeviceOut.mk 1 ("S1") ("n") none none none (some (Json.num 7))] :=
  have hwf : (DispositivosTable.mk [] 1).wf :=
    ⟨List.Pairwise.nil, fun r hr => absurd hr (List.not_mem_nil r)⟩
  ⟨hwf, upsert_config_roundtrip (DispositivosTable.mk [] 1) hwf
    ("S1") ("n") none none none (some (Json.num 7)) rfl⟩

/-! ### Sensors table (`sensor.sensores`) -/

/-- One row of `sensor.sensores` (columns per the INSERT in `upsert_sensor`,
src/app/models.py lines 41-55, plus the generated `sensorid`). -/
structure Sensor where
  sensorid : Nat
  dispositivoid : Nat
  codigosensor : Option String
  nombre : String
  unidad : String
  factorescala : Rat
  desplazamiento : Rat
  rangomin : Option Rat
  rangomax : Option Rat

/-- The `sensor.sensores` table: its rows plus the next value of the
`sensorid` sequence. -/
structure SensoresTable where
  rows : List Sensor
  nextId : Nat

/-- Two sensor rows collide on the natural key used by
`ON CONFLICT (codigosensor, dispositivoid)`: same device and the same
non-null code.  PostgreSQL unique indexes treat NULLs as distinct, so rows
with a null `codigosensor` never collide. -/
def sensorKeyClash (a b : Sensor) : Prop :=
  a.dispositivoid = b.dispositivoid ∧ ∃ c, a.codigosensor = some c ∧ b.codigosensor = some c

/-- Table invariant backing the primary key / sequence on `sensorid` and the
unique index on `(codigosensor, dispositivoid)` required by the ON CONFLICT
clause. -/
def SensoresTable.wf (t : SensoresTable) : Prop :=
  t.rows.Pairwise (fun a b => a.sensorid ≠ b.sensorid ∧ ¬ sensorKeyClash a b) ∧
  ∀ s ∈ t.rows, s.sensorid < t.nextId

/-- Errors surfaced by the store for this core's statements. -/
inductive DbError where
  | foreignKeyViolation : DbError

/-- The SET clause of `ON CONFLICT (codigosensor, dispositivoid) DO UPDATE` in
`upsert_sensor`: it overwrites `nombre`, `unidad`, `factorescala`,
`desplazamiento`, `rangomin`, `rangomax` and leaves `sensorid`,
`dispositivoid` and `codigosensor` untouched. -/
def updateSensor (nombre unidad : String) (factorescala desplazamiento : Rat)
    (rangomin rangomax : Option Rat) (q : Sensor) : Sensor :=
  { q with nombre := nombre, unidad := unidad, factorescala := factorescala,
           desplazamiento := desplazamiento, rangomin := rangomin, rangomax := rangomax }

/-- Embedding of `upsert_sensor` (src/app/models.py lines 31-59): the SQL
statement `INSERT INTO sensor.sensores ... ON CONFLICT (codigosensor,
dispositivoid) DO UPDATE SET ... RETURNING sensorid`.  With a null
`codigosensor` the conflict target can never match (NULL compares distinct in
a unique index), so the statement always inserts a fresh row.  With a
non-null code, an existing row with the same `(dispositivoid, codigosensor)`
is updated and its id returned, otherwise a fresh row is inserted.  Modelled
from the spec for the part of the schema not under src/: per the persisted
state layout of §6, `Sensors.device_id` is a foreign key to `Devices`, so an
insert whose `dispositivoid` references no device row aborts with a
foreign-key violation (the conflict-update path performs no insert and is
reached only when a matching sensor row exists). -/
def upsert_sensor (p_dispositivoid : Nat) (p_codigosensor : Option String)
    (p_nombre p_unidad : String) (p_factorescala p_desplazamiento : Rat)
    (p_rangomin p_rangomax : Option Rat)
    (devices : DispositivosTable) (t : SensoresTable) :
    Except DbError (SensoresTable × Nat) :=
  match p_codigosensor with
  | none =>
      if devices.rows.any (fun d => d.dispositivoid == p_dispositivoid) then
        .ok (⟨t.rows ++ [⟨t.nextId, p_dispositivoid, none, p_nombre, p_unidad,
                p_factorescala, p_desplazamiento, p_rangomin, p_rangomax⟩],
              t.nextId + 1⟩,
             t.nextId)
      else .error .foreignKeyViolation
  | some c =>
      match t.rows.find? (fun s => s.dispositivoid == p_dispositivoid &&
          s.codigosensor == some c) with
      | some s =>
          .ok (⟨t.rows.map (fun q =>
                  if q.dispositivoid == p_dispositivoid && q.codigosensor == some c then
                    updateSensor p_nombre p_unidad p_factorescala p_desplazamiento
                      p_rangomin p_rangomax q
                  else q),
                t.nextId⟩,
               s.sensorid)
      | none =>
          if devices.rows.any (fun d => d.dispositivoid == p_dispositivoid) then
            .ok (⟨t.rows ++ [⟨t.nextId, p_dispositivoid, some c, p_nombre, p_unidad,
                    p_factorescala, p_desplazamiento, p_rangomin, p_rangomax⟩],
                  t.nextId + 1⟩,
                 t.nextId)
          else .error .foreignKeyViolation

/-! ### Claim C8 (sensor upsert: missing device) -/

/-- C8: a sensor upsert whose `dispositivoid` references no existing device
fails (the insert aborts on the foreign key, which the spec's error taxonomy
surfaces as "referenced entity absent") and persists nothing, while a
`dispositivoid` that does exist never fails for that reason.  The hypothesis
`hfk` is the cross-table referential invariant every reachable store
satisfies: existing sensor rows reference existing devices. -/
theorem upsert_sensor_fk (devices : DispositivosTable) (t : SensoresTable)
    (did : Nat) (code : Option String) (n u : String) (fe de : Rat)
    (rmin rmax : Option Rat)
    (hfk : ∀ s ∈ t.rows, ∃ d ∈ devices.rows, d.dispositivoid = s.dispositivoid) :
    ((∀ d ∈ devices.rows, d.dispositivoid ≠ did) →
      upsert_sensor did code n u fe de rmin rmax devices t =
        .error .foreignKeyViolation) ∧
    ((∃ d ∈ devices.rows, d.dispositivoid = did) →
      ∃ res, upsert_sensor did code n u fe de rmin rmax devices t = .ok res) := by
  constructor
  · intro hno
    have hany : devices.rows.any (fun d => d.dispositivoid == did) = false := by
      rw [List.any_eq_false]
      intro d hd hbeq
      exact hno d hd (by simpa using hbeq)
    cases code with
    | none => simp [upsert_sensor, hany]
    | some c =>
      have hfind : t.rows.find?
          (fun s => s.dispositivoid == did && s.codigosensor == some c) = none := by
        rw [List.find?_eq_none]
        intro s hs hpred
        obtain ⟨d, hd, hdid⟩ := hfk s hs
        have hsd : s.dispositivoid = did := by
          have hc := (Bool.and_eq_true _ _).mp hpred
          simpa using hc.1
        exact hno d hd (by rw [hdid, hsd])
      simp [upsert_sensor, hfind, hany]
  · intro hex
    obtain ⟨d, hd, hdid⟩ := hex
    have hany : devices.rows.any (fun dd => dd.dispositivoid == did) = true := by
      rw [List.any_eq_true]
      exact ⟨d, hd, by simp [hdid]⟩
    cases code with
    | none =>
      refine ⟨(⟨t.rows ++ [⟨t.nextId, did, none, n, u, fe, de, rmin, rmax⟩],
        t.nextId + 1⟩, t.nextId), ?_⟩
      simp [upsert_sensor, hany]
    | some c =>
      cases hfind : t.rows.find?
          (fun s => s.dispositivoid == did && s.codigosensor == some c) with
      | some s =>
        refine ⟨(⟨t.rows.map (fun q =>
            if q.dispositivoid == did && q.codigosensor == some c then
              updateSensor n u fe de rmin rmax q
            else q), t.nextId⟩, s.sensorid), ?_⟩
        simp [upsert_sensor, hfind]
      | none =>
        refine ⟨(⟨t.rows ++ [⟨t.nextId, did, some c, n, u, fe, de, rmin, rmax⟩],
          t.nextId + 1⟩, t.nextId), ?_⟩
        simp [upsert_sensor, hfind, hany]

/-- Witness for C8 at concrete inputs: with a single registered device (id 1),
an upsert for device 99 fails with the foreign-key violation while an upsert
for device 1 succeeds. -/
theorem upsert_sensor_fk_witness :
    (upsert_sensor 99 none ("n") ("u") 1 0 none none
        (DispositivosTable.mk [Dispositivo.mk 1 ("D1") ("d") none none none none] 2)
        (SensoresTable.mk [] 1) = .error .foreignKeyViolation) ∧
    ∃ res, upsert_sensor 1 none ("n") ("u") 1 0 none none
        (DispositivosTable.mk [Dispositivo.mk 1 ("D1") ("d") none none none none] 2)
        (SensoresTable.mk [] 1) = .ok res :=
  have hfk : ∀ s ∈ (SensoresTable.mk [] 1).rows,
      ∃ d ∈ (DispositivosTable.mk [Dispositivo.mk 1 ("D1") ("d") none none none none] 2).rows,
        d.dispositivoid = s.dispositivoid :=
    fun s hs => absurd hs (List.not_mem_nil s)
  ⟨(upsert_sensor_fk _ _ 99 none ("n") ("u") 1 0 none none hfk).1 (by simp),
   (upsert_sensor_fk _ _ 1 none ("n") ("u") 1 0 none none hfk).2
     ⟨Dispositivo.mk 1 ("D1") ("d") none none none none, List.mem_singleton_self _, rfl⟩⟩

/-! ### Claim C5 (sensor upsert: null vs non-null code) -/

/-- The ON CONFLICT update leaves `sensorid` untouched. -/
theorem updateSensor_sensorid (n u : String) (fe de : Rat) (rmin rmax : Option Rat)
    (q : Sensor) : (updateSensor n u fe de rmin rmax q).sensorid = q.sensorid := rfl

/-- The ON CONFLICT update leaves `dispositivoid` untouched. -/
theorem updateSensor_dispositivoid (n u : String) (fe de : Rat) (rmin rmax : Option Rat)
    (q : Sensor) : (updateSensor n u fe de rmin rmax q).dispositivoid = q.dispositivoid := rfl

/-- The ON CONFLICT update leaves `codigosensor` untouched. -/
theorem updateSensor_codigosensor (n u : String) (fe de : Rat) (rmin rmax : Option Rat)
    (q : Sensor) : (updateSensor n u fe de rmin rmax q).codigosensor = q.codigosensor := rfl

/-- C5: sensor rows with a null `codigosensor` are never deduplicated — two
null-code upserts for the same device each insert a new row and return
distinct sensor ids — while two upserts with the same non-null
`(dispositivoid, codigosensor)` key affect a single row, which afterwards
holds the second call's field values, and both calls return its id. -/
theorem upsert_sensor_code_semantics (devices : DispositivosTable) (t : SensoresTable)
    (hwf : t.wf) (did : Nat)
    (n1 u1 n2 u2 : String) (fe1 de1 fe2 de2 : Rat)
    (rmin1 rmax1 rmin2 rmax2 : Option Rat) :
    (∀ t1 id1 t2 id2,
      upsert_sensor did none n1 u1 fe1 de1 rmin1 rmax1 devices t = .ok (t1, id1) →
      upsert_sensor did none n2 u2 fe2 de2 rmin2 rmax2 devices t1 = .ok (t2, id2) →
      id1 ≠ id2 ∧ t2.rows.length = t.rows.length + 2) ∧
    (∀ c t1 id1 t2 id2,
      upsert_sensor did (some c) n1 u1 fe1 de1 rmin1 rmax1 devices t = .ok (t1, id1) →
      upsert_sensor did (some c) n2 u2 fe2 de2 rmin2 rmax2 devices t1 = .ok (t2, id2) →
      id1 = id2 ∧
      t2.rows.filter (fun s => s.dispositivoid == did && s.codigosensor == some c) =
        [⟨id1, did, some c, n2, u2, fe2, de2, rmin2, rmax2⟩]) := by
  obtain ⟨hpw, hlt⟩ := hwf
  constructor
  · intro t1 id1 t2 id2 h1 h2
    simp only [upsert_sensor] at h1
    cases hany : devices.rows.any (fun d => d.dispositivoid == did) with
    | false =>
      rw [hany, if_neg Bool.false_ne_true] at h1
      cases h1
    | true =>
      rw [hany, if_pos rfl] at h1
      injection h1 with h1'
      injection h1' with hT hI
      subst hT; subst hI
      simp only [upsert_sensor] at h2
      rw [hany, if_pos rfl] at h2
      injection h2 with h2'
      injection h2' with hT2 hI2
      subst hT2; subst hI2
      refine ⟨Nat.ne_of_lt (Nat.lt_succ_self _), ?_⟩
      simp [List.length_append]
  · intro c t1 id1 t2 id2 h1 h2
    simp only [upsert_sensor] at h1 h2
    cases hf : t.rows.find?
        (fun s => s.dispositivoid == did && s.codigosensor == some c) with
    | none =>
      rw [hf] at h1
      cases hany : devices.rows.any (fun d => d.dispositivoid == did) with
      | false =>
        rw [hany, if_neg Bool.false_ne_true] at h1
        cases h1
      | true =>
        rw [hany, if_pos rfl] at h1
        injection h1 with h1'
        injection h1' with hT hI
        subst hT; subst hI
        have hnos := List.find?_eq_none.mp hf
        have hfind2 : (t.rows ++
            [(⟨t.nextId, did, some c, n1, u1, fe1, de1, rmin1, rmax1⟩ : Sensor)]).find?
              (fun s => s.dispositivoid == did && s.codigosensor == some c) =
            some ⟨t.nextId, did, some c, n1, u1, fe1, de1, rmin1, rmax1⟩ := by
          rw [find?_append_none _ _ hf]
          rw [List.find?_cons_of_pos]
          simp
        rw [hfind2] at h2
        injection h2 with h2'
        injection h2' with hT2 hI2
        subst hT2; subst hI2
        refine ⟨rfl, ?_⟩
        rw [List.map_append, map_if_not_pred _ _ _ hnos]
        rw [List.filter_append, List.filter_eq_nil_iff.mpr hnos, List.nil_append]
        simp [List.filter_cons, updateSensor]
    | some s =>
      rw [hf] at h1
      injection h1 with h1'
      injection h1' with hT hI
      subst hT; subst hI
      have hsm : s ∈ t.rows := List.mem_of_find?_eq_some hf
      have hpred := List.find?_some hf
      have hsd : s.dispositivoid = did := by
        have hc := (Bool.and_eq_true _ _).mp hpred
        simpa using hc.1
      have hsc : s.codigosensor = some c := by
        have hc := (Bool.and_eq_true _ _).mp hpred
        simpa using hc.2
      set u' : Sensor → Sensor := fun q =>
        if q.dispositivoid == did && q.codigosensor == some c then
          updateSensor n1 u1 fe1 de1 rmin1 rmax1 q
        else q with hu'
      have hpres : ∀ q, ((u' q).dispositivoid == did && (u' q).codigosensor == some c) =
          (q.dispositivoid == did && q.codigosensor == some c) := by
        intro q
        rw [hu']
        by_cases hq : (q.dispositivoid == did && q.codigosensor == some c) = true
        · simp only [if_pos hq, updateSensor_dispositivoid, updateSensor_codigosensor]
        · simp only [if_neg hq]
      have hfind2 : (t.rows.map u').find?
          (fun s => s.dispositivoid == did && s.codigosensor == some c) =
          some (u' s) := by
        rw [find?_map_pred_invariant _ _ hpres, hf]
        rfl
      rw [hfind2] at h2
      injection h2 with h2'
      injection h2' with hT2 hI2
      subst hT2; subst hI2
      have hid2 : (u' s).sensorid = s.sensorid := by
        rw [hu']
        by_cases hq : (s.dispositivoid == did && s.codigosensor == some c) = true
        · simp only [if_pos hq, updateSensor_sensorid]
        · simp only [if_neg hq]
      refine ⟨hid2.symm, ?_⟩
      set u2' : Sensor → Sensor := fun q =>
        if q.dispositivoid == did && q.codigosensor == some c then
          updateSensor n2 u2 fe2 de2 rmin2 rmax2 q
        else q with hu2'
      have hpres2 : ∀ q, ((u2' q).dispositivoid == did && (u2' q).codigosensor == some c) =
          (q.dispositivoid == did && q.codigosensor == some c) := by
        intro q
        rw [hu2']
        by_cases hq : (q.dispositivoid == did && q.codigosensor == some c) = true
        · simp only [if_pos hq, updateSensor_dispositivoid, updateSensor_codigosensor]
        · simp only [if_neg hq]
      have hsing : t.rows.filter
          (fun q => q.dispositivoid == did && q.codigosensor == some c) = [s] := by
        apply filter_singleton_of_unique _ t.rows hsm (by simp [hsd, hsc])
        refine hpw.imp ?_
        intro a b hab hcl
        refine hab.2 ⟨?_, c, ?_, ?_⟩
        · have ha := (Bool.and_eq_true _ _).mp hcl.1
          have hb := (Bool.and_eq_true _ _).mp hcl.2
          have ha1 : a.dispositivoid = did := by simpa using ha.1
          have hb1 : b.dispositivoid = did := by simpa using hb.1
          rw [ha1, hb1]
        · have ha := (Bool.and_eq_true _ _).mp hcl.1
          simpa using ha.2
        · have hb := (Bool.and_eq_true _ _).mp hcl.2
          simpa using hb.2
      rw [filter_map_comm, List.filter_congr (fun a _ => hpres2 a)]
      rw [filter_map_comm, List.filter_congr (fun a _ => hpres a), hsing]
      rw [List.map_cons, List.map_nil, List.map_cons, List.map_nil]
      have hb1 : (s.dispositivoid == did && s.codigosensor == some c) = true := by
        simp [hsd, hsc]
      have hbu : ((u' s).dispositivoid == did && (u' s).codigosensor == some c) = true := by
        rw [hpres]
        exact hb1
      have h1s : u' s = updateSensor n1 u1 fe1 de1 rmin1 rmax1 s := by
        rw [hu']
        exact if_pos hb1
      have h2s : u2' (u' s) = updateSensor n2 u2 fe2 de2 rmin2 rmax2 (u' s) := by
        rw [hu2']
        exact if_pos hbu
      have hstep : u2' (u' s) =
          ⟨s.sensorid, did, some c, n2, u2, fe2, de2, rmin2, rmax2⟩ := by
        rw [h2s, h1s]
        cases s
        simp_all [updateSensor]
      rw [hstep]

/-- Witness for C5 at concrete inputs: on an empty sensors table (device 1
registered), two null-code upserts return ids 1 and 2 and leave two rows,
while two upserts with code T1 return id 1 both times and leave a single row
with the second call's name and unit. -/
theorem upsert_sensor_code_semantics_witness :
    (SensoresTable.mk [] 1).wf ∧
    (1 ≠ 2 ∧
      (SensoresTable.mk
        [Sensor.mk 1 1 none ("a") ("u") 1 0 none none,
         Sensor.mk 2 1 none ("b") ("u") 1 0 none none] 3).rows.length =
        (SensoresTable.mk [] 1).rows.length + 2) ∧
    (1 = 1 ∧
      (SensoresTable.mk
        [Sensor.mk 1 1 (some ("T1")) ("b") ("u2") 1 0 none none] 2).rows.filter
          (fun s => s.dispositivoid == 1 && s.codigosensor == some ("T1")) =
        [Sensor.mk 1 1 (some ("T1")) ("b") ("u2") 1 0 none none]) :=
  have hwf : (SensoresTable.mk [] 1).wf :=
    ⟨List.Pairwise.nil, fun s hs => absurd hs (List.not_mem_nil s)⟩
  ⟨hwf,
   (upsert_sensor_code_semantics
      (DispositivosTable.mk [Dispositivo.mk 1 ("D1") ("d") none none none none] 2)
      (SensoresTable.mk [] 1) hwf 1
      ("a") ("u") ("b") ("u") 1 0 1 0 none none none none).1 _ 1 _ 2 rfl rfl,
   (upsert_sensor_code_semantics
      (DispositivosTable.mk [Dispositivo.mk 1 ("D1") ("d") none none none none] 2)
      (SensoresTable.mk [] 1) hwf 1
      ("a") ("u") ("b") ("u2") 1 0 1 0 none none none none).2 ("T1") _ 1 _ 1 rfl rfl⟩

/-! ### Readings table (`sensor.Lecturas`) and the batch-insert endpoint -/

/-- One row of `sensor.Lecturas` (columns per the INSERT in
`insert_lecturas_batch`, src/app/main.py lines 248-266, plus the generated
`lecturaid` selected by the export and list endpoints). -/
structure Lectura where
  lecturaid : Nat
  dispositivoid : Nat
  sensorid : Nat
  fechahora : Nat
  valor : Rat
  calidad : Option Int
  rawrow : Option String

/-- The `sensor.Lecturas` table: its rows plus the next value of the
`lecturaid` sequence. -/
structure LecturasTable where
  rows : List Lectura
  nextId : Nat

/-- The request body element accepted by `/lecturas/batch`
(schemas.LecturaCreate, src/app/schemas.py lines 38-44).  Its value channels
are `temperatura` and `humedad`; there is no `valor` field. -/
structure LecturaCreate where
  dispositivoid : Nat
  sensorid : Nat
  fechahora : Nat
  temperatura : Option Rat
  humedad : Option Rat
  calidad : Option Int

/-- Python-level errors raised by the endpoint code. -/
inductive PyErr where
  | attributeError : PyErr

/-- The attribute access `item.valor` performed by the list comprehension in
`insert_lecturas_batch` (src/app/main.py line 258): `LecturaCreate` declares
no field named `valor`, so on every instance the access raises
AttributeError. -/
def LecturaCreate.valorAttr (_ : LecturaCreate) : Except PyErr Rat :=
  .error .attributeError

/-- One bound parameter tuple `($1, ..., $6)` of the INSERT statement in
`insert_lecturas_batch`. -/
structure LecturaRow where
  dispositivoid : Nat
  sensorid : Nat
  fechahora : Nat
  valor : Rat
  calidad : Option Int
  rawrow : Option String

/-- One tuple of the list comprehension in `insert_lecturas_batch`
(src/app/main.py lines 255-265): `(item.dispositivoid, item.sensorid,
item.fechahora, item.valor, item.calidad, None)`.  The `item.valor` access
fails. -/
def buildLecturaTuple (item : LecturaCreate) : Except PyErr LecturaRow := do
  let v ← item.valorAttr
  pure ⟨item.dispositivoid, item.sensorid, item.fechahora, v, item.calidad, none⟩

/-- The whole list comprehension: tuples are built for all items before
`executemany` runs, and the first raised error aborts the request. -/
def buildLecturaTuples : List LecturaCreate → Except PyErr (List LecturaRow)
  | [] => .ok []
  | item :: rest => do
    let r ← buildLecturaTuple item
    let rs ← buildLecturaTuples rest
    pure (r :: rs)

/-- Test used by `ON CONFLICT (DispositivoID, SensorID, FechaHora)`: does a
row with this natural key already exist. -/
def lecturaKeyExists (rows : List Lectura) (d s f : Nat) : Bool :=
  rows.any (fun r => r.dispositivoid == d && r.sensorid == s && r.fechahora == f)

/-- A single execution of the INSERT with `ON CONFLICT ... DO NOTHING`
(src/app/main.py lines 249-254): the row is appended unless its
`(DispositivoID, SensorID, FechaHora)` key is already present, in which case
the statement does nothing. -/
def insertLecturaOnConflictDoNothing (t : LecturasTable) (row : LecturaRow) : LecturasTable :=
  if lecturaKeyExists t.rows row.dispositivoid row.sensorid row.fechahora then t
  else ⟨t.rows ++ [⟨t.nextId, row.dispositivoid, row.sensorid, row.fechahora,
          row.valor, row.calidad, row.rawrow⟩],
        t.nextId + 1⟩

/-- `conn.executemany` over the bound tuples: the statement runs once per
tuple, in order, each execution seeing the rows inserted by the previous
ones. -/
def executemany_insert_lecturas (rows : List LecturaRow) (t : LecturasTable) : LecturasTable :=
  rows.foldl insertLecturaOnConflictDoNothing t

/-- Embedding of the `/lecturas/batch` endpoint `insert_lecturas_batch`
(src/app/main.py lines 242-276): build the parameter tuples (which raises
AttributeError on `item.valor` for any non-empty batch), run `executemany`,
schedule the best-effort chart refresh (a background task with no effect on
the response, omitted here), and respond with `{"inserted": len(lecturas)}` —
the input batch length, regardless of how many rows were newly persisted. -/
def insert_lecturas_batch (lecturas : List LecturaCreate) (t : LecturasTable) :
    Except PyErr (LecturasTable × Nat) := do
  let tuples ← buildLecturaTuples lecturas
  pure (executemany_insert_lecturas tuples t, lecturas.length)

/-! ### Claim C2 (the `valor` attribute bug) -/

/-- C2: for every non-empty batch, `insert_lecturas_batch` fails with
AttributeError before persisting any row, because the comprehension reads
`item.valor` while `LecturaCreate` defines only `temperatura`, `humedad` and
`calidad` as value channels; only the empty batch succeeds, leaving the table
unchanged and reporting inserted = 0. -/
theorem insert_lecturas_batch_valor_attribute
    (lecturas : List LecturaCreate) (t : LecturasTable) :
    (lecturas = [] → insert_lecturas_batch lecturas t = .ok (t, 0)) ∧
    (lecturas ≠ [] → insert_lecturas_batch lecturas t = .error .attributeError) := by
  constructor
  · rintro rfl
    rfl
  · intro h
    cases lecturas with
    | nil => exact absurd rfl h
    | cons a tl => rfl

/-- A one-element batch used by the C2 witness. -/
def oneLecturaBatch : List LecturaCreate :=
  [LecturaCreate.mk 1 1 100 (some 20) none (some 1)]

/-- Witness for C2 at concrete inputs: the empty batch returns inserted = 0
and a one-element batch raises AttributeError. -/
theorem insert_lecturas_batch_valor_attribute_witness :
    (insert_lecturas_batch [] (LecturasTable.mk [] 1) =
      .ok (LecturasTable.mk [] 1, 0)) ∧
    (insert_lecturas_batch oneLecturaBatch (LecturasTable.mk [] 1) =
      .error .attributeError) :=
  ⟨(insert_lecturas_batch_valor_attribute [] (LecturasTable.mk [] 1)).1 rfl,
   (insert_lecturas_batch_valor_attribute oneLecturaBatch (LecturasTable.mk [] 1)).2
      (List.cons_ne_nil _ _)⟩

/-! ### Claims C1 and C4 (batch ingest: insertedCount and duplicate handling) -/

/-- A seed readings table holding keys (1,1,100) and (1,1,200). -/
def lecturasSeed : LecturasTable :=
  ⟨[⟨1, 1, 1, 100, 20, some 1, none⟩, ⟨2, 1, 1, 200, 21, some 1, none⟩], 3⟩

/-- A batch of five readings, of which the first two carry keys already
present in `lecturasSeed`. -/
def batchFive : List LecturaCreate :=
  [⟨1, 1, 100, some 20, none, some 1⟩,
   ⟨1, 1, 200, some 21, none, some 1⟩,
   ⟨1, 1, 300, some 22, none, some 1⟩,
   ⟨1, 1, 400, some 23, none, some 1⟩,
   ⟨1, 1, 500, some 24, none, some 1⟩]

/-- The parameter tuples `executemany` would receive for `batchFive` if the
comprehension could bind a value for each item (same keys, in the same
order). -/
def tuplesFive : List LecturaRow :=
  [⟨1, 1, 100, 20, some 1, none⟩,
   ⟨1, 1, 200, 21, some 1, none⟩,
   ⟨1, 1, 300, 22, some 1, none⟩,
   ⟨1, 1, 400, 23, some 1, none⟩,
   ⟨1, 1, 500, 24, some 1, none⟩]

/-- C1: the endpoint does not report the number of rows actually newly
persisted.  On a batch of 5 readings of which 2 already exist, the INSERT
statement itself would newly persist exactly 3 rows, while the endpoint's
response expression is the input batch length (5) — and on the actual code
path the call never gets that far: it aborts with AttributeError on
`item.valor`, persisting nothing and reporting nothing. -/
theorem insert_lecturas_batch_count_divergence :
    batchFive.length = 5 ∧
    (executemany_insert_lecturas tuplesFive lecturasSeed).rows.length =
      lecturasSeed.rows.length + 3 ∧
    insert_lecturas_batch batchFive lecturasSeed = .error .attributeError :=
  ⟨rfl, rfl, rfl⟩

/-- A single reading element with key (1,2,100), duplicated in C4's batches. -/
def dupLectura : LecturaCreate := ⟨1, 2, 100, some 20, none, some 1⟩

/-- The parameter tuple `executemany` would receive for `dupLectura`. -/
def dupRow : LecturaRow := ⟨1, 2, 100, 20, some 1, none⟩

/-- C4: the INSERT's `ON CONFLICT ... DO NOTHING` does suppress duplicates of
the (device, sensor, timestamp) key — running the statement over a batch
containing the key twice, or over two successive batches, leaves exactly one
row for the key and raises no error — but the endpoint itself never reaches
the statement on a non-empty batch: it aborts with AttributeError on
`item.valor` and persists nothing. -/
theorem insert_lecturas_batch_duplicate_divergence :
    insert_lecturas_batch [dupLectura, dupLectura] (LecturasTable.mk [] 1) =
      .error .attributeError ∧
    (executemany_insert_lecturas [dupRow, dupRow] (LecturasTable.mk [] 1)).rows.map
        (fun r => (r.dispositivoid, r.sensorid, r.fechahora)) = [(1, 2, 100)] ∧
    (executemany_insert_lecturas [dupRow]
        (executemany_insert_lecturas [dupRow] (LecturasTable.mk [] 1))).rows.map
        (fun r => (r.dispositivoid, r.sensorid, r.fechahora)) = [(1, 2, 100)] :=
  ⟨rfl, rfl, rfl⟩

/-! ### Export endpoint (`sensor.Lecturas` bulk read) and claim C7 -/

/-- Row shape produced by `export_lecturas`: the SELECTed columns `LecturaID,
FechaHora, Valor, Calidad, DispositivoID, SensorID`. -/
structure LecturaExportRow where
  lecturaid : Nat
  fechahora : Nat
  valor : Rat
  calidad : Option Int
  dispositivoid : Nat
  sensorid : Nat

/-- Projection of a stored row to the SELECTed columns. -/
def toExportRow (r : Lectura) : LecturaExportRow :=
  ⟨r.lecturaid, r.fechahora, r.valor, r.calidad, r.dispositivoid, r.sensorid⟩

/-- The ordering demanded by `ORDER BY FechaHora DESC`.  It constrains only
the timestamp; rows with equal timestamps are returned in the store's
incidental order, modelled as the stored row order (a stable sort). -/
def fechaDescRel (a b : Lectura) : Prop := b.fechahora ≤ a.fechahora

instance : DecidableRel fechaDescRel := fun a b => Nat.decLe b.fechahora a.fechahora

instance : IsTotal Lectura fechaDescRel :=
  ⟨fun a b => Nat.le_total b.fechahora a.fechahora⟩

instance : IsTrans Lectura fechaDescRel :=
  ⟨fun _ _ _ hab hbc => le_trans hbc hab⟩

/-- Embedding of `export_lecturas` (src/app/models.py lines 77-80): `SELECT
LecturaID, FechaHora, Valor, Calidad, DispositivoID, SensorID FROM
sensor.Lecturas ORDER BY FechaHora DESC LIMIT $1 OFFSET $2`. -/
def export_lecturas (limit offset : Nat) (t : LecturasTable) : List LecturaExportRow :=
  (((List.insertionSort fechaDescRel t.rows).drop offset).take limit).map toExportRow

/-- The pairwise ordering asserted by claim C7 between an earlier and a later
returned row: strictly more recent, or equal timestamps with (device_id,
sensor_id) ascending. -/
def exportSpecRel (a b : LecturaExportRow) : Prop :=
  b.fechahora < a.fechahora ∨
    (b.fechahora = a.fechahora ∧
      (a.dispositivoid < b.dispositivoid ∨
        (a.dispositivoid = b.dispositivoid ∧ a.sensorid ≤ b.sensorid)))

instance : DecidableRel exportSpecRel := fun a b => by
  unfold exportSpecRel
  infer_instance

/-- The ordering asserted by claim C7: timestamp descending, ties broken by
(device_id, sensor_id) ascending. -/
def exportOrderedSpec (l : List LecturaExportRow) : Prop :=
  l.Pairwise exportSpecRel

instance (l : List LecturaExportRow) : Decidable (exportOrderedSpec l) :=
  List.instDecidablePairwise l

/-- A table whose two rows collide on the timestamp and were inserted in
descending (device, sensor) order. -/
def tieTable : LecturasTable :=
  ⟨[⟨1, 2, 2, 100, 20, some 1, none⟩, ⟨2, 1, 1, 100, 21, some 1, none⟩], 3⟩

/-- C7 counterexample: the SQL statement orders by `FechaHora DESC` only — no
(device_id, sensor_id) tie-break exists — so on `tieTable` the export returns
the (2,2) row before the (1,1) row at equal timestamps, violating the claimed
ordering. -/
theorem export_lecturas_tie_order_counterexample :
    ¬ exportOrderedSpec (export_lecturas 10 0 tieTable) := by decide

/-- C7 amended: the list returned by `export_lecturas` is ordered by
timestamp descending, for every limit and offset; nothing constrains the
relative order of rows with equal timestamps, so pagination is deterministic
only up to timestamp ties. -/
theorem export_lecturas_fecha_desc (limit offset : Nat) (t : LecturasTable) :
    (export_lecturas limit offset t).Pairwise
      (fun a b => b.fechahora ≤ a.fechahora) := by
  unfold export_lecturas
  rw [List.pairwise_map]
  have hs : List.Pairwise fechaDescRel (List.insertionSort fechaDescRel t.rows) :=
    List.sorted_insertionSort fechaDescRel t.rows
  have hsub : (((List.insertionSort fechaDescRel t.rows).drop offset).take limit).Sublist
      (List.insertionSort fechaDescRel t.rows) :=
    (List.take_sublist _ _).trans (List.drop_sublist _ _)
  exact (List.Pairwise.sublist hsub hs).imp (fun hab => hab)

/-! ### Chart aggregation (`sensor.sp_getchartdata`) and claim C6 -/

/-- Errors surfaced by the chart query. -/
inductive ChartError where
  | validationError : ChartError

/-- The enumerated bucket widths accepted by the chart query (spec §4.3). -/
def validBuckets : List String :=
  [("minute"), ("hour"), ("day"), ("week"), ("month")]

/-- Civil date (year, month, day) of a day count since 1970-01-01, after
Howard Hinnant's `civil_from_days` algorithm, restricted to non-negative day
counts. -/
def civilFromDays (z : Nat) : Nat × Nat × Nat :=
  let z' := z + 719468
  let era := z' / 146097
  let doe := z' % 146097
  let yoe := (doe - doe / 1460 + doe / 36524 - doe / 146096) / 365
  let y := yoe + era * 400
  let doy := doe - (365 * yoe + yoe / 4 - yoe / 100)
  let mp := (5 * doy + 2) / 153
  let d := doy - (153 * mp + 2) / 5 + 1
  let m := if mp < 10 then mp + 3 else mp - 9
  (if m ≤ 2 then y + 1 else y, m, d)

/-- Day count since 1970-01-01 of a civil date (inverse of `civilFromDays`
for dates from 1970 on). -/
def daysFromCivil (y m d : Nat) : Nat :=
  let y' := if m ≤ 2 then y - 1 else y
  let era := y' / 400
  let yoe := y' % 400
  let mp := if m > 2 then m - 3 else m + 9
  let doy := (153 * mp + 2) / 5 + d - 1
  let doe := yoe * 365 + yoe / 4 - yoe / 100 + doy
  era * 146097 + doe - 719468

/-- Truncation of a timestamp (seconds since the epoch) to the start of its
bucket: minute/hour/day truncate to the boundary, week to the ISO week start
(Monday), month to the first of the month. -/
def truncTimestamp (bucket : String) (t : Nat) : Nat :=
  if bucket == ("minute") then t - t % 60
  else if bucket == ("hour") then t - t % 3600
  else if bucket == ("day") then t - t % 86400
  else if bucket == ("week") then (t / 86400 - (t / 86400 + 3) % 7) * 86400
  else
    let c := civilFromDays (t / 86400)
    daysFromCivil c.1 c.2.1 1 * 86400

/-- One aggregated bucket of the chart query: bucket start, the device and
sensor it aggregates, and count/average/min/max of the value channel. -/
structure ChartBucket where
  bucket_start : Nat
  dispositivoid : Nat
  sensorid : Nat
  cnt : Nat
  avg : Rat
  vmin : Rat
  vmax : Rat

/-- Grouping key of a reading for the chart query. -/
def chartKey (bucket : String) (r : Lectura) : Nat × Nat × Nat :=
  (truncTimestamp bucket r.fechahora, r.dispositivoid, r.sensorid)

/-- Row filter of the chart query: half-open time range [desde, hasta), an
optional device filter, and an optional exact (case-sensitive) sensor-name
filter resolved through the sensors table. -/
def chartFilter (dispositivoid : Option Nat) (sensornombre : Option String)
    (desde hasta : Nat) (sdb : SensoresTable) (r : Lectura) : Bool :=
  decide (desde ≤ r.fechahora) && decide (r.fechahora < hasta) &&
  (match dispositivoid with
   | none => true
   | some d => r.dispositivoid == d) &&
  (match sensornombre with
   | none => true
   | some nm => sdb.rows.any (fun s => s.sensorid == r.sensorid && s.nombre == nm))

/-- Deterministic result order of the chart query: ascending bucket start,
then device id, then sensor id. -/
def keyLE (a b : Nat × Nat × Nat) : Prop :=
  a.1 < b.1 ∨ (a.1 = b.1 ∧ (a.2.1 < b.2.1 ∨ (a.2.1 = b.2.1 ∧ a.2.2 ≤ b.2.2)))

instance : DecidableRel keyLE := fun a b => by
  unfold keyLE
  infer_instance

/-- Minimum of two rationals. -/
def ratMin (a b : Rat) : Rat := if a ≤ b then a else b

/-- Maximum of two rationals. -/
def ratMax (a b : Rat) : Rat := if a ≤ b then b else a

/-- Per-group statistics: count, average, min and max of the values. -/
def bucketOfGroup (k : Nat × Nat × Nat) (vs : List Rat) : ChartBucket :=
  { bucket_start := k.1
    dispositivoid := k.2.1
    sensorid := k.2.2
    cnt := vs.length
    avg := (vs.foldl (fun a b => a + b) 0) / (vs.length : Rat)
    vmin := match vs with
      | [] => 0
      | v :: rest => rest.foldl ratMin v
    vmax := match vs with
      | [] => 0
      | v :: rest => rest.foldl ratMax v }

/-- The aggregation performed on a valid bucket argument: filter the readings,
group them by (truncated timestamp, device, sensor), and emit per-group
statistics in ascending key order (non-empty groups only). -/
def chartAggregate (dispositivoid : Option Nat) (sensornombre : Option String)
    (desde hasta : Nat) (bucket : String)
    (db : LecturasTable) (sdb : SensoresTable) : List ChartBucket :=
  let rows := db.rows.filter (chartFilter dispositivoid sensornombre desde hasta sdb)
  let keys := List.insertionSort keyLE (rows.map (chartKey bucket)).dedup
  keys.map (fun k =>
    bucketOfGroup k ((rows.filter (fun r => chartKey bucket r == k)).map
      (fun r => r.valor)))

/-- Modelled from the spec: the stored procedure `sensor.sp_getchartdata`
invoked by `get_chart_data` (src/app/models.py line 74) lives in the
database, whose DDL is not under src/.  Per spec §4.3 it accepts a bucket
from the enumerated set {minute, hour, day, week, month} and fails with a
ValidationError on anything else; on a valid bucket it partitions the
matching readings of [desde, hasta) into boundary-aligned windows and
returns count/average/min/max per non-empty window, ordered by bucket start,
device id, sensor id. -/
def sp_getchartdata (dispositivoid : Option Nat) (sensornombre : Option String)
    (desde hasta : Nat) (bucket : String)
    (db : LecturasTable) (sdb : SensoresTable) : Except ChartError (List ChartBucket) :=
  if bucket ∈ validBuckets then
    .ok (chartAggregate dispositivoid sensornombre desde hasta bucket db sdb)
  else .error .validationError

/-- Embedding of `get_chart_data` (src/app/models.py lines 72-75): a direct
call of the stored procedure `sensor.sp_getchartdata` with the same
arguments. -/
def get_chart_data (dispositivoid : Option Nat) (sensornombre : Option String)
    (desde hasta : Nat) (bucket : String)
    (db : LecturasTable) (sdb : SensoresTable) : Except ChartError (List ChartBucket) :=
  sp_getchartdata dispositivoid sensornombre desde hasta bucket db sdb

/-- C6: `get_chart_data` fails with a ValidationError exactly on bucket
arguments outside {minute, hour, day, week, month}; on any bucket in the set
it succeeds (in particular it never fails for that reason). -/
theorem get_chart_data_bucket_validation
    (dispositivoid : Option Nat) (sensornombre : Option String) (desde hasta : Nat)
    (bucket : String) (db : LecturasTable) (sdb : SensoresTable) :
    (bucket ∉ validBuckets →
      get_chart_data dispositivoid sensornombre desde hasta bucket db sdb =
        .error .validationError) ∧
    (bucket ∈ validBuckets →
      ∃ bs, get_chart_data dispositivoid sensornombre desde hasta bucket db sdb =
        .ok bs) := by
  constructor
  · intro h
    unfold get_chart_data sp_getchartdata
    rw [if_neg h]
  · intro h
    refine ⟨chartAggregate dispositivoid sensornombre desde hasta bucket db sdb, ?_⟩
    unfold get_chart_data sp_getchartdata
    rw [if_pos h]

/-- Witness for C6 at concrete inputs: bucket "fortnight" is rejected with
the ValidationError, bucket "hour" succeeds. -/
theorem get_chart_data_bucket_validation_witness :
    (get_chart_data none none 0 1000 ("fortnight") (LecturasTable.mk [] 1)
        (SensoresTable.mk [] 1) = .error .validationError) ∧
    ∃ bs, get_chart_data none none 0 1000 ("hour") (LecturasTable.mk [] 1)
        (SensoresTable.mk [] 1) = .ok bs :=
  ⟨(get_chart_data_bucket_validation none none 0 1000 ("fortnight")
      (LecturasTable.mk [] 1) (SensoresTable.mk [] 1)).1 (by decide),
   (get_chart_data_bucket_validation none none 0 1000 ("hour")
      (LecturasTable.mk [] 1) (SensoresTable.mk [] 1)).2 (by decide)⟩
